import Mathlib

/-!
Shallow embedding of the order-to-service provisioning pipeline of the
iptvbcms backend (src/backend/server.py and the panel client modules),
together with theorems checking the natural-language specification
against this embedding.

Conventions of the embedding:
* datetimes are integers counted in days (the source only ever compares
  datetimes and adds whole-day timedeltas on the paths modelled here);
* Mongo collections are Lean lists of records; find_one is List.find?
  (first match), insert_one appends a record carrying a fresh id,
  update_one with a $set document maps a field update over the matching
  record;
* network exchanges with the remote panels are oracle inputs: every
  remote call consumes a response value supplied to the function, and the
  call itself is recorded in an adapter-operation trace;
* emails, chat notifications and log lines are recorded as events
  (log lines are dropped: they carry no state).
-/

/-- Payment status of an order (source: order["status"] strings). -/
inductive OrderStatus
  | pending
  | paid
  | failed
  | cancelled
deriving DecidableEq

/-- Account type tag of a line item / product / service. -/
inductive AccountType
  | subscriber
  | reseller
deriving DecidableEq

/-- Cart intent flag on a line item (item.get("action_type", "create_new")). -/
inductive ActionType
  | createNew
  | extend
deriving DecidableEq

/-- Status of a local Service record. -/
inductive SvcStatus
  | pending
  | active
  | suspended
  | cancelled
  | refunded
  | failed
  | expired
deriving DecidableEq

/-- Panel family tag (product.get("panel_type", "xtream")). -/
inductive PanelFamily
  | xtream
  | xuione
deriving DecidableEq

section MarkOrderPaid

/-- The slice of an order that mark_order_paid consults. -/
structure MpOrder where
  status : OrderStatus
  userId : Nat
deriving DecidableEq

/--
Embedding of mark_order_paid (src/backend/server.py lines 2607-2665),
restricted to its effect on the order record and on whether a
provisioning background task is scheduled.  The source:
looks the order up (404 when missing), rejects with HTTP 400 when
order["status"] == "paid", otherwise sets status "paid" and schedules
provision_order_services as a background task exactly once.
The returned Bool is true when a provisioning task was scheduled.
-/
def mark_order_paid (order : Option MpOrder) : Except (Nat × String) (MpOrder × Bool) :=
  match order with
  | none => .error (404, "Order not found")
  | some o =>
    if o.status = OrderStatus.paid then
      .error (400, "Order already paid")
    else
      .ok ({ o with status := OrderStatus.paid }, true)

/--
Invoke mark_order_paid n times in sequence on the same order id,
threading the stored order record, and count how many of the calls
scheduled a provisioning task.
-/
def runMarkPaidCalls : MpOrder → Nat → MpOrder × Nat
  | o, 0 => (o, 0)
  | o, n + 1 =>
    match mark_order_paid (some o) with
    | .ok (o2, scheduled) =>
      let r := runMarkPaidCalls o2 n
      (r.1, r.2 + (if scheduled then 1 else 0))
    | .error _ => runMarkPaidCalls o n

theorem runMarkPaidCalls_paid (n : Nat) (o : MpOrder) (h : o.status = OrderStatus.paid) :
    runMarkPaidCalls o n = (o, 0) := by
  induction n with
  | zero => rfl
  | succ n ih =>
    simp [runMarkPaidCalls, mark_order_paid, h, ih]

end MarkOrderPaid

/--
C1: invoking the mark-order-paid entry point on an order already marked
paid is rejected with an error and schedules no provisioning task, so
across any number n of sequential mark-paid calls on one order at most
one call ever schedules the provisioning pipeline (hence the pipeline is
entered at most once per line item).
-/
theorem mark_order_paid_idempotent (o : MpOrder) (n : Nat) :
    (runMarkPaidCalls o n).2 ≤ 1 ∧
    (o.status = OrderStatus.paid →
      mark_order_paid (some o) = .error (400, "Order already paid") ∧
      (runMarkPaidCalls o n).2 = 0) := by
  constructor
  · induction n with
    | zero => simp [runMarkPaidCalls]
    | succ n ih =>
      by_cases h : o.status = OrderStatus.paid
      · simp [runMarkPaidCalls, mark_order_paid, h, runMarkPaidCalls_paid n _ h]
      · simp [runMarkPaidCalls, mark_order_paid, h,
          runMarkPaidCalls_paid n { o with status := OrderStatus.paid } rfl]
  · intro h
    constructor
    · simp [mark_order_paid, h]
    · simp [runMarkPaidCalls_paid n o h]

/-- Witness for C1 at a concrete order and call count. -/
theorem mark_order_paid_idempotent_witness :
    (runMarkPaidCalls ⟨OrderStatus.paid, 7⟩ 5).2 = 0 ∧
    (runMarkPaidCalls ⟨OrderStatus.pending, 7⟩ 5).2 ≤ 1 :=
  ⟨(mark_order_paid_idempotent ⟨OrderStatus.paid, 7⟩ 5).2 rfl |>.2,
   (mark_order_paid_idempotent ⟨OrderStatus.pending, 7⟩ 5).1⟩

/-! ## Data model of the provisioning pipeline -/

/-- order.get("reseller_credentials"): customer-chosen reseller login pair. -/
structure RCreds where
  username : Option String
  password : Option String
deriving DecidableEq

/-- The slice of an order record that the provisioning functions consult. -/
structure POrder where
  userId : Nat
  resellerCredentials : Option RCreds
deriving DecidableEq

/-- An order line item as consulted by the provisioning functions. -/
structure Item where
  productId : Nat
  productName : String
  accountType : AccountType
  termMonths : Nat
  actionType : ActionType
  renewalServiceId : Option Nat
deriving DecidableEq

/-- A product record as consulted by the provisioning functions. -/
structure Product where
  panelType : PanelFamily
  panelIndex : Nat
  xtreamPackageId : Option Nat
  bouquets : List Nat
  maxConnections : Nat
  resellerCredits : Nat
  resellerMaxLines : Nat
  customPanelUrl : String
  isTrial : Bool
deriving DecidableEq

/--
A local Service record (document of services_collection).  Fields the
source never writes on a given path are kept at their creation value;
panelType is an Option because only the XuiOne path writes "panel_type".
-/
structure Service where
  id : Nat
  userId : Nat
  orderId : Nat
  productId : Nat
  productName : String
  accountType : AccountType
  termMonths : Nat
  username : String
  password : String
  status : SvcStatus
  panelIndex : Nat
  panelType : Option PanelFamily
  panelName : String
  createdAt : Int
  startDate : Option Int
  expiryDate : Option Int
  dedicatedip : Option Nat
  xuioneLineId : Option Nat
  xuioneResellerId : Option Nat
  bouquets : List Nat
  maxConnections : Nat
  resellerCredits : Nat
  resellerMaxLines : Nat
  panelUrl : String
  isCreditAddon : Bool
  error : Option String
deriving DecidableEq

/-- A configured XtreamUI panel instance (settings["xtream"]["panels"]). -/
structure XtreamPanel where
  name : Option String
  panelUrl : String
  streamingUrl : Option String
deriving DecidableEq

/-- A configured XuiOne panel instance (settings["xuione"]["panels"]). -/
structure XuiPanel where
  name : Option String
  panelUrl : String
  apiAccessCode : String
  apiKey : String
deriving DecidableEq

/-- Trace entry for one remote adapter operation issued by provisioning. -/
inductive AdapterOp
  | createSubscriber (username password : String) (packageId : Nat)
  | extendSubscriber (username : String) (packageId : Nat)
  | addCredits (username : String) (credits : Nat)
  | createReseller (username : String) (credits : Nat)
  | xuiCreateLine (username password : String) (packageId : Option Nat)
  | xuiEditLine (lineId : Nat) (packageId : Option Nat)
  | xuiCreateUser (username password : String) (credits : Nat)
  | xuiAdjustCredits (resellerId : Option Nat) (credits : Nat)
  | xuiGetUser (resellerId : Option Nat)
deriving DecidableEq

/-- Notification events dispatched by provisioning. -/
inductive NotifyEvent
  | serviceActivated (username : String)
  | serviceRenewed (username : String) (newExpiry : Int)
  | creditsAdded (username : String) (credits : Nat)
  | resellerActivated (username : String)
  | telegramServiceActivated
deriving DecidableEq

/-- Result dictionary returned by the XtreamUI adapter methods. -/
structure XtOpResult where
  success : Bool
  error : Option String
  userId : Option Nat
deriving DecidableEq

/-- Oracle: responses of the XtreamUI panel for one line item. -/
structure XtreamOracle where
  createResult : XtOpResult
  extendResult : XtOpResult
  addCreditsResult : XtOpResult
  createResellerResult : XtOpResult
  addCreditsAfterCreate : XtOpResult
deriving DecidableEq

/-- Ambient inputs of a provisioning call. -/
structure ProvEnv where
  now : Int
  emailOn : Bool
  genUsername : String
  genPassword : String
deriving DecidableEq

/-- Observable outcome of provisioning one line item. -/
structure ProvOutcome where
  ops : List AdapterOp
  db : List Service
  events : List NotifyEvent
  fresh : Nat
deriving DecidableEq

/--
Embedding of provision_xtream_service (src/backend/server.py lines
2750-3088).  Fidelity notes that matter:
* source line 2803 opens a guard on a subscriber account type, and by
  indentation everything down to line 3085 sits inside that guard, so a
  reseller line item runs nothing on this path;
* inside the guard, the existing-reseller lookup at line 2826 re-tests
  the account type for reseller and therefore never succeeds, and the
  reseller dispatch at line 2966 is unreachable (it is still embedded
  below, mirroring the source);
* in the new-subscription branch, the else at source line 2961 pairs
  with the email-service test at line 2941, not with the success test at
  line 2924: a failed create still inserts the record with its pending
  status and, when an email service is configured, still sends the
  activation email; without an email service the source re-inserts the
  same mutated dict, which the driver rejects as a duplicate _id so the
  stored record is unchanged.
-/
def provision_xtream_service (env : ProvEnv) (panels : List XtreamPanel)
    (oracle : XtreamOracle) (orderId : Nat) (order : POrder) (item : Item)
    (product : Product) (db : List Service) (fresh : Nat) : ProvOutcome :=
  if panels.isEmpty then
    ⟨[], db, [], fresh⟩
  else
    let panelIndex := if product.panelIndex ≥ panels.length then 0 else product.panelIndex
    let panel := panels.getD panelIndex ⟨none, "", none⟩
    let panelName := panel.name.getD ("Server " ++ toString (panelIndex + 1))
    let userpass :=
      match item.accountType, order.resellerCredentials with
      | AccountType.reseller, some rc =>
          (rc.username.getD env.genUsername, rc.password.getD env.genPassword)
      | _, _ => (env.genUsername, env.genPassword)
    let username := userpass.1
    let password := userpass.2
    let termMonths := item.termMonths
    let expiryDate := env.now + (termMonths : Int) * 30
    if item.accountType = AccountType.subscriber then
      let existingSubscriber :=
        match item.renewalServiceId with
        | some sid =>
            db.find? fun (s : Service) =>
              s.id == sid && s.userId == order.userId && s.status == SvcStatus.active
        | none =>
            if item.actionType = ActionType.extend then
              db.find? fun (s : Service) =>
                s.userId == order.userId && s.productId == item.productId &&
                  s.status == SvcStatus.active
            else none
      let existingReseller :=
        if item.accountType = AccountType.reseller then
          db.find? fun (s : Service) =>
            s.userId == order.userId && s.accountType == AccountType.reseller &&
              s.status == SvcStatus.active && s.panelIndex == panelIndex
        else none
      let serviceDict : Service := {
        id := fresh
        userId := order.userId
        orderId := orderId
        productId := item.productId
        productName := item.productName
        accountType := item.accountType
        termMonths := termMonths
        username :=
          match existingReseller, existingSubscriber with
          | some r, _ => r.username
          | none, some s => s.username
          | none, none => username
        password :=
          match existingReseller, existingSubscriber with
          | some r, _ => r.password
          | none, some s => s.password
          | none, none => password
        status := SvcStatus.pending
        panelIndex := panelIndex
        panelType := none
        panelName := panelName
        createdAt := env.now
        startDate := none
        expiryDate := none
        dedicatedip := none
        xuioneLineId := none
        xuioneResellerId := none
        bouquets := []
        maxConnections := 0
        resellerCredits := 0
        resellerMaxLines := 0
        panelUrl := ""
        isCreditAddon := false
        error := none }
      if item.accountType = AccountType.subscriber then
        match existingSubscriber with
        | some ex =>
          let packageId := product.xtreamPackageId.getD 52
          let ops := [AdapterOp.extendSubscriber ex.username packageId]
          let extendDays : Int := (termMonths : Int) * 30
          let currentExpiry := ex.expiryDate.getD env.now
          let newExpiry :=
            if currentExpiry < env.now then env.now + extendDays
            else currentExpiry + extendDays
          let db2 := db.map fun (s : Service) =>
            if s.id = ex.id then
              { s with expiryDate := some newExpiry, status := SvcStatus.active }
            else s
          let events :=
            if env.emailOn then [NotifyEvent.serviceRenewed ex.username newExpiry]
            else []
          ⟨ops, db2, events, fresh⟩
        | none =>
          let packageId := product.xtreamPackageId.getD 52
          let result := oracle.createResult
          let ops := [AdapterOp.createSubscriber username password packageId]
          let serviceDict2 :=
            if result.success then
              { serviceDict with
                  bouquets := product.bouquets
                  maxConnections := product.maxConnections
                  status := SvcStatus.active
                  startDate := some env.now
                  expiryDate := some expiryDate
                  dedicatedip := result.userId }
            else serviceDict
          let db2 := db ++ [serviceDict2]
          if env.emailOn then
            ⟨ops, db2,
              [NotifyEvent.serviceActivated username,
               NotifyEvent.telegramServiceActivated], fresh + 1⟩
          else
            ⟨ops, db2, [], fresh + 1⟩
      else
        match existingReseller with
        | some ex =>
          let ops := [AdapterOp.addCredits ex.username product.resellerCredits]
          let serviceDict2 :=
            { serviceDict with
                resellerCredits := product.resellerCredits
                resellerMaxLines := 0
                panelUrl := product.customPanelUrl
                status := SvcStatus.active
                startDate := some env.now
                expiryDate := some expiryDate
                isCreditAddon := true }
          let db2 := db ++ [serviceDict2]
          let events :=
            if env.emailOn then
              [NotifyEvent.creditsAdded ex.username product.resellerCredits]
            else []
          ⟨ops, db2, events, fresh + 1⟩
        | none =>
          let result := oracle.createResellerResult
          if result.success then
            let creditOps :=
              if 0 < product.resellerCredits then
                [AdapterOp.addCredits username product.resellerCredits]
              else []
            let serviceDict2 :=
              { serviceDict with
                  resellerCredits := product.resellerCredits
                  resellerMaxLines := product.resellerMaxLines
                  panelUrl := product.customPanelUrl
                  status := SvcStatus.active
                  startDate := some env.now
                  expiryDate := some expiryDate }
            let db2 := db ++ [serviceDict2]
            let events :=
              if env.emailOn && product.customPanelUrl ≠ "" then
                [NotifyEvent.resellerActivated username]
              else []
            ⟨AdapterOp.createReseller username product.resellerCredits :: creditOps,
              db2, events, fresh + 1⟩
          else
            ⟨[AdapterOp.createReseller username product.resellerCredits],
              db ++ [{ serviceDict with status := SvcStatus.failed }], [], fresh + 1⟩
    else
      ⟨[], db, [], fresh⟩

/-!  ## XuiOne panel API exchanges -/

/--
Outcome of one HTTP exchange with the XuiOne panel API: the request
machinery raised, the panel answered with a non-200 status, with a 200
whose body is not JSON (possibly an HTML login page), or with parseable
JSON carrying a status string, an optional message and an optional data
id.
-/
inductive ApiResp
  | raised (msg : String)
  | httpErr (code : Nat)
  | okNotJson (isHtml : Bool)
  | okJson (status : String) (message : Option String) (dataId : Option Nat)
deriving DecidableEq

/-- Oracle: responses of the XuiOne panel for one line item. -/
structure XuiOracle where
  loginOk : Bool
  createLineResp : ApiResp
  editLineResp : ApiResp
  createUserResp : ApiResp
  adjustResp : ApiResp
  getUserResp : ApiResp
deriving DecidableEq

/--
Embedding of extend_xuione_line (src/backend/server.py lines 3092-3195).
Returns the issued adapter operations, the updated service store and the
dispatched notifications.  A failed login, a missing line id, an HTTP
error, a non-JSON body or a non-success status all leave the store
untouched (they are only logged); only a STATUS_SUCCESS JSON reply
updates the stored expiry (additively, per the same rule as the XtreamUI
path) and sends the renewal email.  The line id is read from
dedicatedip, falling back to xuione_line_id (the truthiness coercion of
the source is dropped: remote ids are modelled as present-or-absent).
-/
def extend_xuione_line (env : ProvEnv) (oracle : XuiOracle)
    (existingService : Service) (item : Item) (product : Product)
    (db : List Service) : List AdapterOp × List Service × List NotifyEvent :=
  if !oracle.loginOk then ([], db, [])
  else
    match existingService.dedicatedip.or existingService.xuioneLineId with
    | none => ([], db, [])
    | some lineId =>
      let extendDays : Int := (item.termMonths : Int) * 30
      let currentExpiry := existingService.expiryDate.getD env.now
      let newExpiry :=
        if currentExpiry < env.now then env.now + extendDays
        else currentExpiry + extendDays
      let ops := [AdapterOp.xuiEditLine lineId product.xtreamPackageId]
      match oracle.editLineResp with
      | ApiResp.okJson status _ _ =>
        if status = "STATUS_SUCCESS" then
          let db2 := db.map fun (s : Service) =>
            if s.id = existingService.id then
              { s with expiryDate := some newExpiry, status := SvcStatus.active }
            else s
          let events :=
            if env.emailOn then
              [NotifyEvent.serviceRenewed existingService.username newExpiry]
            else []
          (ops, db2, events)
        else (ops, db, [])
      | ApiResp.okNotJson _ => (ops, db, [])
      | ApiResp.httpErr _ => (ops, db, [])
      | ApiResp.raised _ => (ops, db, [])

/--
Embedding of provision_xuione_service (src/backend/server.py lines
3198-3576).  Subscriber items: an explicit renewal_service_id that
resolves to an active xuione service of the same customer routes to
extend_xuione_line and returns; otherwise a create_line call is made
(after checking the API key and logging in) and the service record is
inserted with a status and error derived from the reply.  Reseller
items: a create_user call is made; on success, a positive credit grant
additionally issues adjust_credits and, when that succeeds, a get_user
verification read; an exception during those calls aborts to the outer
handler which records the failure on the service record.  On this path
no activation email is sent for resellers (the source only logs).
-/
def provision_xuione_service (env : ProvEnv) (panels : List XuiPanel)
    (oracle : XuiOracle) (orderId : Nat) (order : POrder) (item : Item)
    (product : Product) (db : List Service) (fresh : Nat) : ProvOutcome :=
  if panels.isEmpty then
    ⟨[], db, [], fresh⟩
  else
    let panelIndex := if product.panelIndex ≥ panels.length then 0 else product.panelIndex
    let panel := panels.getD panelIndex ⟨none, "", "", ""⟩
    let panelName := panel.name.getD ("XuiOne Panel " ++ toString (panelIndex + 1))
    let userpass :=
      match item.accountType, order.resellerCredentials with
      | AccountType.reseller, some rc =>
          (rc.username.getD env.genUsername, rc.password.getD env.genPassword)
      | _, _ => (env.genUsername, env.genPassword)
    let username := userpass.1
    let password := userpass.2
    let termMonths := item.termMonths
    let expiryDate := env.now + (termMonths : Int) * 30
    let serviceDict : Service := {
      id := fresh
      userId := order.userId
      orderId := orderId
      productId := item.productId
      productName := item.productName
      accountType := item.accountType
      termMonths := termMonths
      username := username
      password := password
      status := SvcStatus.pending
      panelIndex := panelIndex
      panelType := some PanelFamily.xuione
      panelName := panelName
      createdAt := env.now
      startDate := none
      expiryDate := none
      dedicatedip := none
      xuioneLineId := none
      xuioneResellerId := none
      bouquets := []
      maxConnections := 0
      resellerCredits := 0
      resellerMaxLines := 0
      panelUrl := ""
      isCreditAddon := false
      error := none }
    if item.accountType = AccountType.subscriber then
      let existingService :=
        match item.renewalServiceId with
        | some sid =>
            db.find? fun (s : Service) =>
              s.id == sid && s.userId == order.userId &&
                s.status == SvcStatus.active && s.panelType == some PanelFamily.xuione
        | none => none
      match existingService with
      | some ex =>
        let r := extend_xuione_line env oracle ex item product db
        ⟨r.1, r.2.1, r.2.2, fresh⟩
      | none =>
        if panel.apiKey = "" then
          ⟨[], db ++ [{ serviceDict with
              status := SvcStatus.failed
              error := some "API key not configured" }], [], fresh + 1⟩
        else if !oracle.loginOk then
          ⟨[], db ++ [{ serviceDict with
              status := SvcStatus.failed
              error := some "Login failed" }], [], fresh + 1⟩
        else
          let ops := [AdapterOp.xuiCreateLine username password product.xtreamPackageId]
          let serviceDict2 :=
            match oracle.createLineResp with
            | ApiResp.okJson status message dataId =>
              if status = "STATUS_SUCCESS" then
                { serviceDict with
                    bouquets := product.bouquets
                    maxConnections := product.maxConnections
                    status := SvcStatus.active
                    startDate := some env.now
                    expiryDate := some expiryDate
                    dedicatedip := dataId
                    xuioneLineId := dataId
                    panelUrl := panel.panelUrl }
              else if status = "STATUS_INVALID_PACKAGE" then
                { serviceDict with
              status := SvcStatus.failed
              error := some "Invalid package/bouquets configuration" }
              else
                { serviceDict with
              status := SvcStatus.failed
              error := some (message.getD status) }
            | ApiResp.okNotJson isHtml =>
              if isHtml then
                { serviceDict with
              status := SvcStatus.failed
              error := some "API authentication failed - check API key" }
              else
                { serviceDict with
              status := SvcStatus.failed
              error := some "Invalid API response" }
            | ApiResp.httpErr code =>
              { serviceDict with
              status := SvcStatus.failed
              error := some ("HTTP " ++ toString code) }
            | ApiResp.raised msg =>
              { serviceDict with status := SvcStatus.failed, error := some msg }
          let db2 := db ++ [serviceDict2]
          let events :=
            if serviceDict2.status = SvcStatus.active && env.emailOn then
              [NotifyEvent.serviceActivated username,
               NotifyEvent.telegramServiceActivated]
            else []
          ⟨ops, db2, events, fresh + 1⟩
    else
      if panel.apiKey = "" then
        ⟨[], db ++ [{ serviceDict with
              status := SvcStatus.failed
              error := some "API key not configured" }], [], fresh + 1⟩
      else if !oracle.loginOk then
        ⟨[], db ++ [{ serviceDict with
              status := SvcStatus.failed
              error := some "Login failed" }], [], fresh + 1⟩
      else
        let createOp := AdapterOp.xuiCreateUser username password product.resellerCredits
        match oracle.createUserResp with
        | ApiResp.okJson status message dataId =>
          if status = "STATUS_SUCCESS" then
            let resellerId := dataId
            let adjustOp := AdapterOp.xuiAdjustCredits resellerId product.resellerCredits
            let creditCalls :
                List AdapterOp × Option String :=
              if 0 < product.resellerCredits then
                match oracle.adjustResp with
                | ApiResp.raised msg => ([adjustOp], some msg)
                | ApiResp.okJson st _ _ =>
                  if st = "STATUS_SUCCESS" then
                    match oracle.getUserResp with
                    | ApiResp.raised msg =>
                        ([adjustOp, AdapterOp.xuiGetUser resellerId], some msg)
                    | _ => ([adjustOp, AdapterOp.xuiGetUser resellerId], none)
                  else ([adjustOp], none)
                | ApiResp.okNotJson _ => ([adjustOp], none)
                | ApiResp.httpErr _ => ([adjustOp], none)
              else ([], none)
            match creditCalls.2 with
            | some msg =>
              ⟨createOp :: creditCalls.1,
                db ++ [{ serviceDict with
              status := SvcStatus.failed
              error := some msg }], [], fresh + 1⟩
            | none =>
              let serviceDict2 :=
                { serviceDict with
                    status := SvcStatus.active
                    startDate := some env.now
                    expiryDate := none
                    dedicatedip := resellerId
                    xuioneResellerId := resellerId
                    resellerCredits := product.resellerCredits
                    panelUrl := panel.panelUrl }
              ⟨createOp :: creditCalls.1, db ++ [serviceDict2], [], fresh + 1⟩
          else
            ⟨[createOp], db ++ [{ serviceDict with
              status := SvcStatus.failed
              error := some (message.getD status) }], [], fresh + 1⟩
        | ApiResp.okNotJson _ =>
          ⟨[createOp], db ++ [{ serviceDict with
              status := SvcStatus.failed
              error := some "Invalid API response" }], [], fresh + 1⟩
        | ApiResp.httpErr code =>
          ⟨[createOp], db ++ [{ serviceDict with
              status := SvcStatus.failed
              error := some ("HTTP " ++ toString code) }], [], fresh + 1⟩
        | ApiResp.raised msg =>
          ⟨[createOp], db ++ [{ serviceDict with
              status := SvcStatus.failed
              error := some msg }], [], fresh + 1⟩

/-! ## Order-level provisioning loop -/

/-- Per-item oracle bundle for a whole-order provisioning run. -/
structure ItemOracle where
  xtream : XtreamOracle
  xui : XuiOracle
  genUsername : String
  genPassword : String
deriving DecidableEq

/--
Embedding of provision_order_services (src/backend/server.py lines
2717-2748): for each line item of the order, in order, look the product
up (a missing product is logged and skipped with continue), then route
to the XuiOne path when the product carries the xuione panel tag and to
the XtreamUI path otherwise.  Each per-item provisioning function
swallows its own exceptions, so every item is reached no matter how the
previous items fared.  Returns the list of adapter-operation traces, one
entry per line item in order, together with the final service store and
fresh-id counter.
-/
def provision_order_services (env : ProvEnv) (xtreamPanels : List XtreamPanel)
    (xuiPanels : List XuiPanel) (products : List (Nat × Product))
    (oracles : Nat → ItemOracle) (orderId : Nat) (order : POrder) :
    Nat → List Item → List Service → Nat →
      List (List AdapterOp) × List Service × Nat
  | _, [], db, fresh => ([], db, fresh)
  | k, item :: rest, db, fresh =>
    match products.find? fun (p : Nat × Product) => p.1 == item.productId with
    | none =>
      let r := provision_order_services env xtreamPanels xuiPanels products
        oracles orderId order (k + 1) rest db fresh
      ([] :: r.1, r.2.1, r.2.2)
    | some pr =>
      let product := pr.2
      let io := oracles k
      let env2 := { env with genUsername := io.genUsername, genPassword := io.genPassword }
      let out :=
        if product.panelType = PanelFamily.xuione then
          provision_xuione_service env2 xuiPanels io.xui orderId order item product db fresh
        else
          provision_xtream_service env2 xtreamPanels io.xtream orderId order item product db fresh
      let r := provision_order_services env xtreamPanels xuiPanels products
        oracles orderId order (k + 1) rest out.db out.fresh
      (out.ops :: r.1, r.2.1, r.2.2)

/-! ## Concrete fixtures for evaluation witnesses and counterexamples -/

/-- A service record with neutral fields, used to build concrete fixtures. -/
def svcBase : Service := {
  id := 0, userId := 0, orderId := 0, productId := 0, productName := "",
  accountType := AccountType.subscriber, termMonths := 0, username := "",
  password := "", status := SvcStatus.active, panelIndex := 0,
  panelType := none, panelName := "", createdAt := 0, startDate := none,
  expiryDate := none, dedicatedip := none, xuioneLineId := none,
  xuioneResellerId := none, bouquets := [], maxConnections := 0,
  resellerCredits := 0, resellerMaxLines := 0, panelUrl := "",
  isCreditAddon := false, error := none }

/-- Reference time 1000, email service configured, generated credentials. -/
def envT : ProvEnv := ⟨1000, true, "genu", "genp"⟩

def xtPanelsT : List XtreamPanel := [⟨some "P1", "panel1", none⟩]

def xuiPanelsT : List XuiPanel := [⟨some "X1", "xpanel1", "ac", "key"⟩]

def orderT : POrder := ⟨9, none⟩

/-- An all-success XtreamUI oracle. -/
def oracleOkXt : XtreamOracle :=
  ⟨⟨true, none, some 77⟩, ⟨true, none, none⟩, ⟨true, none, none⟩,
   ⟨true, none, none⟩, ⟨true, none, none⟩⟩

/-- An all-success XuiOne oracle. -/
def xuiOracleOk : XuiOracle :=
  ⟨true, ApiResp.okJson "STATUS_SUCCESS" none (some 55),
   ApiResp.okJson "STATUS_SUCCESS" none none,
   ApiResp.okJson "STATUS_SUCCESS" none (some 66),
   ApiResp.okJson "STATUS_SUCCESS" none none,
   ApiResp.okJson "STATUS_SUCCESS" none none⟩

/-- A reseller line item for product 5 on the XtreamUI path. -/
def resellerItemT : Item := ⟨5, "Reseller 10", AccountType.reseller, 1, ActionType.createNew, none⟩

def resellerProdT : Product := ⟨PanelFamily.xtream, 0, some 52, [], 1, 10, 5, "rurl", false⟩

/-- An active reseller service already owned by customer 9 on panel 0. -/
def existingResellerSvcT : Service :=
  { svcBase with id := 3, userId := 9, productId := 5,
                 accountType := AccountType.reseller, username := "ru",
                 password := "rp", expiryDate := some 2000,
                 resellerCredits := 10 }

/--
C4 evaluation: on the XtreamUI path a reseller line item is a silent
no-op.  The customer already owns an active reseller service on the
same panel, the order is paid, the oracle would answer every remote
call with success, and yet provisioning issues no adapter operation,
writes nothing to the service store and sends nothing: source lines
2824-3085 are nested inside the subscriber-only guard of line 2803, so
the add-credits dispatch (and the whole reseller branch) is unreachable.
-/
theorem xtream_reseller_item_is_silent_noop :
    provision_xtream_service envT xtPanelsT oracleOkXt 1 orderT resellerItemT
        resellerProdT [existingResellerSvcT] 100 =
      ⟨[], [existingResellerSvcT], [], 100⟩ := by
  decide

/-- A subscriber line item for product 6, no renewal reference. -/
def subItemT : Item := ⟨6, "Sub", AccountType.subscriber, 1, ActionType.createNew, none⟩

def subProdT : Product := ⟨PanelFamily.xtream, 0, some 52, [1, 2], 2, 0, 0, "", false⟩

/-- Oracle whose create_subscriber call fails with a panel error. -/
def oracleFailCreate : XtreamOracle :=
  ⟨⟨false, some "panel rejected the form", none⟩, ⟨true, none, none⟩,
   ⟨true, none, none⟩, ⟨true, none, none⟩, ⟨true, none, none⟩⟩

/-- Oracle whose extend_subscriber call fails with a panel error. -/
def oracleFailExtend : XtreamOracle :=
  ⟨⟨true, none, some 77⟩, ⟨false, some "panel refused", none⟩,
   ⟨true, none, none⟩, ⟨true, none, none⟩, ⟨true, none, none⟩⟩

/-- A subscriber item explicitly renewing service 3. -/
def renewItemT : Item := ⟨6, "Sub", AccountType.subscriber, 1, ActionType.createNew, some 3⟩

/-- An active subscriber service of customer 9 expiring at 2000. -/
def existingSubSvcT : Service :=
  { svcBase with id := 3, userId := 9, productId := 6, username := "su",
                 password := "sp", expiryDate := some 2000 }

/--
C6 evaluation at the failing inputs.  First conjunct block: with an
email service configured, a create_subscriber call that the adapter
reports as failed still leaves the inserted service with status pending
(not failed), retains no error message, and sends the activation email
plus the activation chat notification - the else at source line 2961
pairs with the email-service test of line 2941 instead of the success
test of line 2924.  Second block: a failed remote extend still marks
the renewed service active with the advanced expiry (2000 + 30) and
sends the renewal email (source lines 2869-2904 ignore the failure).
-/
theorem xtream_failed_ops_misreported :
    (let out := provision_xtream_service envT xtPanelsT oracleFailCreate 1
        orderT subItemT subProdT [] 0
     out.ops = [AdapterOp.createSubscriber "genu" "genp" 52] ∧
     out.db.map Service.status = [SvcStatus.pending] ∧
     out.db.map Service.error = [none] ∧
     NotifyEvent.serviceActivated "genu" ∈ out.events) ∧
    (let out2 := provision_xtream_service envT xtPanelsT oracleFailExtend 1
        orderT renewItemT subProdT [existingSubSvcT] 10
     out2.ops = [AdapterOp.extendSubscriber "su" 52] ∧
     out2.db.map Service.status = [SvcStatus.active] ∧
     out2.db.map Service.expiryDate = [some 2030] ∧
     out2.events = [NotifyEvent.serviceRenewed "su" 2030]) := by
  decide

/-- A reseller line item for product 7 on the XuiOne path. -/
def resellerItemX : Item := ⟨7, "XReseller", AccountType.reseller, 1, ActionType.createNew, none⟩

def resellerProdX : Product := ⟨PanelFamily.xuione, 0, some 12, [], 1, 10, 0, "", false⟩

/--
C5 counterexample: a reseller line item routed to the XuiOne path does
issue a remote reseller-creation call (create_user with the credit
grant, followed by adjust_credits and a get_user verification), and the
resulting local record is active with no error - there is no
fail-fast unsupported-operation guard on this path (source lines
3421-3570).
-/
theorem xuione_reseller_calls_create_user :
    let out := provision_xuione_service envT xuiPanelsT xuiOracleOk 1 orderT
        resellerItemX resellerProdX [] 0
    out.ops = [AdapterOp.xuiCreateUser "genu" "genp" 10,
               AdapterOp.xuiAdjustCredits (some 66) 10,
               AdapterOp.xuiGetUser (some 66)] ∧
    out.db.map Service.status = [SvcStatus.active] ∧
    out.db.map Service.error = [none] := by
  decide

/--
C5 amended: reseller provisioning on the XuiOne path is implemented,
not rejected: whenever the panel list is nonempty, the selected panel
has an API key and login succeeds, the first adapter operation issued
for a reseller line item is a create_user call carrying the credit grant
of the product (whatever the panel then answers).
-/
theorem xuione_reseller_first_op_create_user (env : ProvEnv)
    (panels : List XuiPanel) (oracle : XuiOracle) (orderId : Nat)
    (order : POrder) (item : Item) (product : Product) (db : List Service)
    (fresh : Nat) (hp : panels ≠ [])
    (hk : (panels.getD (if product.panelIndex ≥ panels.length then 0
            else product.panelIndex) ⟨none, "", "", ""⟩).apiKey ≠ "")
    (hl : oracle.loginOk = true)
    (ha : item.accountType = AccountType.reseller) :
    ∃ u pw rest,
      (provision_xuione_service env panels oracle orderId order item product
        db fresh).ops = AdapterOp.xuiCreateUser u pw product.resellerCredits :: rest := by
  have hne : panels.isEmpty = false := by
    cases panels with
    | nil => exact absurd rfl hp
    | cons a l => rfl
  have hsub : ¬ item.accountType = AccountType.subscriber := by
    rw [ha]; intro h; cases h
  unfold provision_xuione_service
  simp only [hne, Bool.false_eq_true, if_false, hsub, if_true, hl,
    Bool.not_true, if_neg hk]
  rcases oracle.createUserResp with msg | code | ih | ⟨st, m, d⟩
  · exact ⟨_, _, _, rfl⟩
  · exact ⟨_, _, _, rfl⟩
  · exact ⟨_, _, _, rfl⟩
  · by_cases hs : st = "STATUS_SUCCESS"
    · simp only [hs, if_true]
      by_cases hc : 0 < product.resellerCredits
      · simp only [hc, if_true]
        rcases oracle.adjustResp with m2 | c2 | i2 | ⟨st2, mm2, d2⟩
        · exact ⟨_, _, _, rfl⟩
        · exact ⟨_, _, _, rfl⟩
        · exact ⟨_, _, _, rfl⟩
        · by_cases hs2 : st2 = "STATUS_SUCCESS"
          · simp only [hs2, if_true]
            rcases oracle.getUserResp with m3 | c3 | i3 | ⟨st3, mm3, d3⟩ <;>
              exact ⟨_, _, _, rfl⟩
          · simp only [hs2, if_false]
            exact ⟨_, _, _, rfl⟩
      · simp only [hc, if_false]
        exact ⟨_, _, _, rfl⟩
    · simp only [hs, if_false]
      exact ⟨_, _, _, rfl⟩

/-- Witness for the amended C5 theorem at a concrete input. -/
theorem xuione_reseller_first_op_create_user_witness :
    ∃ u pw rest,
      (provision_xuione_service envT xuiPanelsT xuiOracleOk 2 orderT
        resellerItemX resellerProdX [] 5).ops =
        AdapterOp.xuiCreateUser u pw resellerProdX.resellerCredits :: rest :=
  xuione_reseller_first_op_create_user envT xuiPanelsT xuiOracleOk 2 orderT
    resellerItemX resellerProdX [] 5 (by decide) (by decide) (by decide) (by decide)

/--
An active xuione subscriber service of customer 9 with a stored remote
line id and an expiry already in the past of envT.now.
-/
def existingXuiSvcT : Service :=
  { svcBase with id := 4, userId := 9, productId := 6, username := "xu",
                 panelType := some PanelFamily.xuione,
                 dedicatedip := some 21, expiryDate := some 500 }

/--
Helper: a record of the store after the expiry-update map, whose id is
the targeted one, carries the new expiry and the active status.
-/
theorem update_expiry_mem (db : List Service) (i : Nat) (v : Int) (s : Service)
    (hs : s ∈ db.map fun (t : Service) =>
      if t.id = i then { t with expiryDate := some v, status := SvcStatus.active } else t)
    (hid : s.id = i) :
    s.expiryDate = some v ∧ s.status = SvcStatus.active := by
  rcases List.mem_map.mp hs with ⟨t, ht, rfl⟩
  by_cases h : t.id = i
  · simp [h]
  · rw [if_neg h] at hid
    exact absurd hid h

/--
C3: renewal expiry arithmetic, on both panel families.  XtreamUI side:
when a subscriber item explicitly renews service sid and the lookup by
id, owner and active status resolves, every record of the resulting
store carrying that id stores expiry E + D when the stored expiry E is
not in the past and now + D when it is, with D = term_months * 30, and
is marked active.  XuiOne side: the same additive rule governs
extend_xuione_line whenever login succeeds, a remote line id is stored
and the panel acknowledges the edit with STATUS_SUCCESS.
-/
theorem renewal_expiry_additive
    (env : ProvEnv) (panels : List XtreamPanel) (oracle : XtreamOracle)
    (orderId : Nat) (order : POrder) (item : Item) (product : Product)
    (db : List Service) (fresh : Nat) (ex : Service) (e : Int) (sid : Nat)
    (hp : panels ≠ [])
    (ha : item.accountType = AccountType.subscriber)
    (hr : item.renewalServiceId = some sid)
    (hf : (db.find? fun (s : Service) =>
        s.id == sid && s.userId == order.userId && s.status == SvcStatus.active) = some ex)
    (he : ex.expiryDate = some e)
    (env2 : ProvEnv) (oracle2 : XuiOracle) (ex2 : Service) (item2 : Item)
    (product2 : Product) (db2 : List Service) (e2 : Int) (lid : Nat)
    (hl2 : oracle2.loginOk = true)
    (hid2 : ex2.dedicatedip.or ex2.xuioneLineId = some lid)
    (hs2 : ∃ m d, oracle2.editLineResp = ApiResp.okJson "STATUS_SUCCESS" m d)
    (he2 : ex2.expiryDate = some e2) :
    (∀ s ∈ (provision_xtream_service env panels oracle orderId order item
        product db fresh).db,
      s.id = ex.id →
        s.expiryDate = some (if e < env.now then env.now + (item.termMonths : Int) * 30
          else e + (item.termMonths : Int) * 30) ∧
        s.status = SvcStatus.active) ∧
    (∀ s ∈ (extend_xuione_line env2 oracle2 ex2 item2 product2 db2).2.1,
      s.id = ex2.id →
        s.expiryDate = some (if e2 < env2.now then env2.now + (item2.termMonths : Int) * 30
          else e2 + (item2.termMonths : Int) * 30) ∧
        s.status = SvcStatus.active) := by
  have hne : panels.isEmpty = false := by
    cases panels with
    | nil => exact absurd rfl hp
    | cons a l => rfl
  constructor
  · intro s hs hid
    unfold provision_xtream_service at hs
    simp only [hne, Bool.false_eq_true, if_false, ha, if_true, hr, hf, he,
      Option.getD_some, reduceCtorEq, reduceIte] at hs
    exact update_expiry_mem db ex.id _ s hs hid
  · intro s hs hid
    rcases hs2 with ⟨m, d, hresp⟩
    unfold extend_xuione_line at hs
    simp only [hl2, Bool.not_true, Bool.false_eq_true, if_false, hid2, hresp,
      he2, Option.getD_some, reduceIte] at hs
    exact update_expiry_mem db2 ex2.id _ s hs hid

/-- Witness for C3 at concrete inputs, one renewal per panel family. -/
theorem renewal_expiry_additive_witness :
    (∀ s ∈ (provision_xtream_service envT xtPanelsT oracleOkXt 1 orderT
        renewItemT subProdT [existingSubSvcT] 10).db,
      s.id = existingSubSvcT.id →
        s.expiryDate = some (if (2000 : Int) < envT.now
          then envT.now + (renewItemT.termMonths : Int) * 30
          else 2000 + (renewItemT.termMonths : Int) * 30) ∧
        s.status = SvcStatus.active) ∧
    (∀ s ∈ (extend_xuione_line envT xuiOracleOk existingXuiSvcT renewItemT
        resellerProdX [existingXuiSvcT]).2.1,
      s.id = existingXuiSvcT.id →
        s.expiryDate = some (if (500 : Int) < envT.now
          then envT.now + (renewItemT.termMonths : Int) * 30
          else 500 + (renewItemT.termMonths : Int) * 30) ∧
        s.status = SvcStatus.active) :=
  renewal_expiry_additive envT xtPanelsT oracleOkXt 1 orderT renewItemT
    subProdT [existingSubSvcT] 10 existingSubSvcT 2000 3 (by decide) rfl rfl
    (by decide) rfl envT xuiOracleOk existingXuiSvcT renewItemT resellerProdX
    [existingXuiSvcT] 500 21 rfl (by decide) ⟨none, none, rfl⟩ rfl

/--
C7: when a subscriber line item carries an explicit renewal_service_id
that resolves, the resolved record is looked up by exactly id, owner and
active status; the single adapter operation issued extends exactly that
record; and the legacy action-type flag is ignored on the XtreamUI path
(the outcome is the same for every flag value).  On the XuiOne path the
action-type flag is never consulted at all, for any inputs.
-/
theorem explicit_renewal_target_priority
    (env : ProvEnv) (panels : List XtreamPanel) (oracle : XtreamOracle)
    (orderId : Nat) (order : POrder) (item : Item) (product : Product)
    (db : List Service) (fresh : Nat) (ex : Service) (sid : Nat)
    (hp : panels ≠ [])
    (ha : item.accountType = AccountType.subscriber)
    (hr : item.renewalServiceId = some sid)
    (hf : (db.find? fun (s : Service) =>
        s.id == sid && s.userId == order.userId && s.status == SvcStatus.active) = some ex) :
    (ex.id = sid ∧ ex.userId = order.userId ∧ ex.status = SvcStatus.active) ∧
    (provision_xtream_service env panels oracle orderId order item product db fresh).ops =
      [AdapterOp.extendSubscriber ex.username (product.xtreamPackageId.getD 52)] ∧
    (∀ a : ActionType,
      provision_xtream_service env panels oracle orderId order
        { item with actionType := a } product db fresh =
      provision_xtream_service env panels oracle orderId order item product db fresh) ∧
    (∀ (env2 : ProvEnv) (panels2 : List XuiPanel) (oracle2 : XuiOracle)
        (orderId2 : Nat) (order2 : POrder) (item2 : Item) (product2 : Product)
        (db2 : List Service) (fresh2 : Nat) (a : ActionType),
      provision_xuione_service env2 panels2 oracle2 orderId2 order2
        { item2 with actionType := a } product2 db2 fresh2 =
      provision_xuione_service env2 panels2 oracle2 orderId2 order2 item2 product2 db2 fresh2) := by
  have hne : panels.isEmpty = false := by
    cases panels with
    | nil => exact absurd rfl hp
    | cons a l => rfl
  refine ⟨?_, ?_, ?_, ?_⟩
  · have hp1 := List.find?_some hf
    simp only [Bool.and_eq_true, beq_iff_eq] at hp1
    exact ⟨hp1.1.1, hp1.1.2, hp1.2⟩
  · unfold provision_xtream_service
    simp only [hne, Bool.false_eq_true, if_false, ha, if_true, hr, hf,
      reduceCtorEq, reduceIte]
  · intro a
    obtain ⟨pid, pname, atype, tm, act, rsid⟩ := item
    have hrv : rsid = some sid := hr
    subst hrv
    have hav : atype = AccountType.subscriber := ha
    subst hav
    rfl
  · intro env2 panels2 oracle2 orderId2 order2 item2 product2 db2 fresh2 a
    obtain ⟨pid, pname, atype, tm, act, rsid⟩ := item2
    rfl

/-- Witness for C7 at concrete inputs. -/
theorem explicit_renewal_target_priority_witness :
    (existingSubSvcT.id = 3 ∧ existingSubSvcT.userId = orderT.userId ∧
      existingSubSvcT.status = SvcStatus.active) ∧
    (provision_xtream_service envT xtPanelsT oracleOkXt 1 orderT renewItemT
        subProdT [existingSubSvcT] 10).ops =
      [AdapterOp.extendSubscriber existingSubSvcT.username
        (subProdT.xtreamPackageId.getD 52)] ∧
    (∀ a : ActionType,
      provision_xtream_service envT xtPanelsT oracleOkXt 1 orderT
        { renewItemT with actionType := a } subProdT [existingSubSvcT] 10 =
      provision_xtream_service envT xtPanelsT oracleOkXt 1 orderT renewItemT
        subProdT [existingSubSvcT] 10) ∧
    (∀ (env2 : ProvEnv) (panels2 : List XuiPanel) (oracle2 : XuiOracle)
        (orderId2 : Nat) (order2 : POrder) (item2 : Item) (product2 : Product)
        (db2 : List Service) (fresh2 : Nat) (a : ActionType),
      provision_xuione_service env2 panels2 oracle2 orderId2 order2
        { item2 with actionType := a } product2 db2 fresh2 =
      provision_xuione_service env2 panels2 oracle2 orderId2 order2 item2
        product2 db2 fresh2) :=
  explicit_renewal_target_priority envT xtPanelsT oracleOkXt 1 orderT
    renewItemT subProdT [existingSubSvcT] 10 existingSubSvcT 3 (by decide)
    rfl rfl (by decide)

/-- Helper: the extension path never inserts or deletes service records. -/
theorem extend_xuione_line_db_length (env : ProvEnv) (oracle : XuiOracle)
    (ex : Service) (item : Item) (product : Product) (db : List Service) :
    (extend_xuione_line env oracle ex item product db).2.1.length = db.length := by
  unfold extend_xuione_line
  split
  · rfl
  · split
    · rfl
    · split <;> try rfl
      split <;> simp

/-- Helper: the extension path only ever issues edit_line operations. -/
theorem extend_xuione_line_ops_shape (env : ProvEnv) (oracle : XuiOracle)
    (ex : Service) (item : Item) (product : Product) (db : List Service) :
    ∀ op ∈ (extend_xuione_line env oracle ex item product db).1,
      ∃ lid, op = AdapterOp.xuiEditLine lid product.xtreamPackageId := by
  unfold extend_xuione_line
  split
  · intro op h; exact absurd h (List.not_mem_nil op)
  · split
    · intro op h; exact absurd h (List.not_mem_nil op)
    · split <;> first
        | (intro op h
           simp only [List.mem_singleton] at h
           exact ⟨_, h⟩)
        | (split <;> intro op h <;>
            simp only [List.mem_singleton] at h <;> exact ⟨_, h⟩)

/--
C10: on the XuiOne path a subscriber line item is treated as an
extension exactly when its explicit renewal_service_id resolves to an
active xuione-tagged service of the same customer.  When the resolution
comes up empty (no reference, or a reference that does not resolve - in
particular when only the legacy extend flag is set), the item falls
through to creating a new line: the single adapter operation is a
create_line call and one new record is inserted.  When the resolution
succeeds, the resolved record has exactly the id, owner, active status
and xuione panel tag of the query, no record is inserted, and every
operation issued is an edit_line call.
-/
theorem xuione_extension_requires_explicit_reference
    (env : ProvEnv) (panels : List XuiPanel) (oracle : XuiOracle)
    (orderId : Nat) (order : POrder) (item : Item) (product : Product)
    (db : List Service) (fresh : Nat)
    (hp : panels ≠ [])
    (ha : item.accountType = AccountType.subscriber)
    (hk : (panels.getD (if product.panelIndex ≥ panels.length then 0
            else product.panelIndex) ⟨none, "", "", ""⟩).apiKey ≠ "")
    (hl : oracle.loginOk = true) :
    ((match item.renewalServiceId with
      | some sid =>
          db.find? fun (s : Service) =>
            s.id == sid && s.userId == order.userId &&
              s.status == SvcStatus.active && s.panelType == some PanelFamily.xuione
      | none => none) = none →
      ∃ u pw,
        (provision_xuione_service env panels oracle orderId order item product
          db fresh).ops = [AdapterOp.xuiCreateLine u pw product.xtreamPackageId] ∧
        (provision_xuione_service env panels oracle orderId order item product
          db fresh).db.length = db.length + 1) ∧
    (∀ ex sid, item.renewalServiceId = some sid →
      (db.find? fun (s : Service) =>
          s.id == sid && s.userId == order.userId &&
            s.status == SvcStatus.active && s.panelType == some PanelFamily.xuione) = some ex →
      (ex.id = sid ∧ ex.userId = order.userId ∧ ex.status = SvcStatus.active ∧
        ex.panelType = some PanelFamily.xuione) ∧
      (provision_xuione_service env panels oracle orderId order item product
        db fresh).db.length = db.length ∧
      (∀ op ∈ (provision_xuione_service env panels oracle orderId order item
          product db fresh).ops,
        ∃ lid, op = AdapterOp.xuiEditLine lid product.xtreamPackageId)) := by
  have hne : panels.isEmpty = false := by
    cases panels with
    | nil => exact absurd rfl hp
    | cons a l => rfl
  constructor
  · intro hres
    unfold provision_xuione_service
    simp only [hne, Bool.false_eq_true, if_false, ha, if_true, hres, hl,
      Bool.not_true, if_neg hk, List.length_append]
    exact ⟨_, _, rfl, rfl⟩
  · intro ex sid hr hf
    have hq := List.find?_some hf
    simp only [Bool.and_eq_true, beq_iff_eq] at hq
    refine ⟨⟨hq.1.1.1, hq.1.1.2, hq.1.2, hq.2⟩, ?_, ?_⟩
    · unfold provision_xuione_service
      simp only [hne, Bool.false_eq_true, if_false, ha, if_true, hr, hf]
      exact extend_xuione_line_db_length env oracle ex item product db
    · unfold provision_xuione_service
      simp only [hne, Bool.false_eq_true, if_false, ha, if_true, hr, hf]
      exact extend_xuione_line_ops_shape env oracle ex item product db

/-- A subscriber item carrying only the legacy extend flag, no explicit
reference. -/
def legacyExtendItemX : Item := ⟨6, "Sub", AccountType.subscriber, 1, ActionType.extend, none⟩

/--
Witness for C10: an item with only the legacy extend flag set, while the
customer owns an active xuione service, still routes to create_line and
inserts a new record.
-/
theorem xuione_extension_requires_explicit_reference_witness :
    ∃ u pw,
      (provision_xuione_service envT xuiPanelsT xuiOracleOk 1 orderT
        legacyExtendItemX resellerProdX [existingXuiSvcT] 9).ops =
        [AdapterOp.xuiCreateLine u pw resellerProdX.xtreamPackageId] ∧
      (provision_xuione_service envT xuiPanelsT xuiOracleOk 1 orderT
        legacyExtendItemX resellerProdX [existingXuiSvcT] 9).db.length =
        [existingXuiSvcT].length + 1 :=
  (xuione_extension_requires_explicit_reference envT xuiPanelsT xuiOracleOk 1
    orderT legacyExtendItemX resellerProdX [existingXuiSvcT] 9 (by decide) rfl
    (by decide) rfl).1 rfl

/-- Default item used with List.getD when indexing line-item lists. -/
def dItem : Item := ⟨0, "", AccountType.subscriber, 0, ActionType.createNew, none⟩

/--
Helper: with at least one XtreamUI panel configured, a subscriber line
item on the XtreamUI path issues exactly one adapter operation (an
extend for a resolved renewal, a create otherwise), whatever the oracle
answers.
-/
theorem provision_xtream_subscriber_one_op (env : ProvEnv)
    (panels : List XtreamPanel) (oracle : XtreamOracle) (orderId : Nat)
    (order : POrder) (item : Item) (product : Product) (db : List Service)
    (fresh : Nat) (hp : panels ≠ [])
    (ha : item.accountType = AccountType.subscriber) :
    (provision_xtream_service env panels oracle orderId order item product
      db fresh).ops.length = 1 := by
  have hne : panels.isEmpty = false := by
    cases panels with
    | nil => exact absurd rfl hp
    | cons a l => rfl
  unfold provision_xtream_service
  simp only [hne, Bool.false_eq_true, if_false, ha, if_true]
  split
  · rfl
  · split <;> rfl

/-- Helper: the order loop emits one trace entry per line item. -/
theorem provision_order_services_length (env : ProvEnv)
    (xtreamPanels : List XtreamPanel) (xuiPanels : List XuiPanel)
    (products : List (Nat × Product)) (oracles : Nat → ItemOracle)
    (orderId : Nat) (order : POrder) :
    ∀ (items : List Item) (k : Nat) (db : List Service) (fresh : Nat),
      (provision_order_services env xtreamPanels xuiPanels products oracles
        orderId order k items db fresh).1.length = items.length := by
  intro items
  induction items with
  | nil => intro k db fresh; rfl
  | cons item rest ih =>
    intro k db fresh
    cases h : products.find? fun (p : Nat × Product) => p.1 == item.productId with
    | none => simp [provision_order_services, h, ih]
    | some pr => simp [provision_order_services, h, ih]

/--
Helper: the i-th trace entry of the order loop holds exactly one
operation whenever the i-th item is a subscriber item whose product
lookup resolves to an XtreamUI-tagged product and at least one XtreamUI
panel is configured.
-/
theorem provision_order_services_getD (env : ProvEnv)
    (xtreamPanels : List XtreamPanel) (xuiPanels : List XuiPanel)
    (products : List (Nat × Product)) (oracles : Nat → ItemOracle)
    (orderId : Nat) (order : POrder) :
    ∀ (items : List Item) (k : Nat) (db : List Service) (fresh : Nat)
      (i : Nat), i < items.length →
      ∀ (pr : Nat × Product),
      (products.find? fun (p : Nat × Product) =>
        p.1 == (items.getD i dItem).productId) = some pr →
      pr.2.panelType = PanelFamily.xtream →
      (items.getD i dItem).accountType = AccountType.subscriber →
      xtreamPanels ≠ [] →
      ((provision_order_services env xtreamPanels xuiPanels products oracles
        orderId order k items db fresh).1.getD i []).length = 1 := by
  intro items
  induction items with
  | nil =>
    intro k db fresh i hi
    exact absurd hi (Nat.not_lt_zero i)
  | cons item rest ih =>
    intro k db fresh i hi pr hfind hx hsub hp
    cases i with
    | zero =>
      simp only [List.getD_cons_zero] at hfind hsub
      cases h : products.find? fun (p : Nat × Product) => p.1 == item.productId with
      | none => rw [h] at hfind; exact absurd hfind (by simp)
      | some pr2 =>
        rw [h] at hfind
        injection hfind with hpr
        subst hpr
        have hnx : ¬ pr2.2.panelType = PanelFamily.xuione := by
          rw [hx]; intro hcon; cases hcon
        simp only [provision_order_services, h, List.getD_cons_zero]
        rw [if_neg hnx]
        exact provision_xtream_subscriber_one_op _ _ _ _ _ _ _ _ _ hp hsub
    | succ j =>
      simp only [List.getD_cons_succ] at hfind hsub
      have hj : j < rest.length := Nat.lt_of_succ_lt_succ hi
      cases h : products.find? fun (p : Nat × Product) => p.1 == item.productId with
      | none =>
        simp only [provision_order_services, h, List.getD_cons_succ]
        exact ih (k + 1) db fresh j hj pr hfind hx hsub hp
      | some pr2 =>
        simp only [provision_order_services, h, List.getD_cons_succ]
        split <;> exact ih (k + 1) _ _ j hj pr hfind hx hsub hp

/-- One oracle bundle reused for every item of concrete runs. -/
def oraclesT : Nat → ItemOracle := fun _ => ⟨oracleOkXt, xuiOracleOk, "genu", "genp"⟩

/-- A line item whose product id is absent from the catalog. -/
def ghostItem : Item := ⟨42, "Ghost", AccountType.subscriber, 1, ActionType.createNew, none⟩

/--
C2 counterexample: a paid order with one line item whose product record
is missing attempts zero adapter operations, not one per line item - the
loop logs the missing product and moves on (source lines 2729-2731), so
the claimed "exactly N adapter operations" fails at N = 1.
-/
theorem provisioning_zero_ops_for_missing_product :
    (provision_order_services envT xtPanelsT xuiPanelsT [] oraclesT 1 orderT
      0 [ghostItem] [] 0).1 = [[]] ∧
    [ghostItem].length = 1 ∧
    ((provision_order_services envT xtPanelsT xuiPanelsT [] oraclesT 1 orderT
      0 [ghostItem] [] 0).1.map List.length).sum = 0 := by
  decide

/--
C2 amended: the provisioning run processes every one of the N line
items in order - it emits one operation-trace entry per item, so a
failure while provisioning item i (missing product, adapter error or
exception) never prevents the attempt on item i+1 - and every
subscriber item whose product lookup resolves to an XtreamUI-tagged
product with at least one panel configured contributes exactly one
adapter operation.  (An item whose product is missing contributes zero
operations, which is what refutes the unqualified "exactly N".)
-/
theorem provisioning_attempts_all_items (env : ProvEnv)
    (xtreamPanels : List XtreamPanel) (xuiPanels : List XuiPanel)
    (products : List (Nat × Product)) (oracles : Nat → ItemOracle)
    (orderId : Nat) (order : POrder) (items : List Item) (k : Nat)
    (db : List Service) (fresh : Nat) :
    (provision_order_services env xtreamPanels xuiPanels products oracles
      orderId order k items db fresh).1.length = items.length ∧
    (∀ i, i < items.length →
      ∀ pr : Nat × Product,
      (products.find? fun (p : Nat × Product) =>
        p.1 == (items.getD i dItem).productId) = some pr →
      pr.2.panelType = PanelFamily.xtream →
      (items.getD i dItem).accountType = AccountType.subscriber →
      xtreamPanels ≠ [] →
      ((provision_order_services env xtreamPanels xuiPanels products oracles
        orderId order k items db fresh).1.getD i []).length = 1) :=
  ⟨provision_order_services_length env xtreamPanels xuiPanels products oracles
      orderId order items k db fresh,
   fun i hi pr hfind hx hsub hp =>
     provision_order_services_getD env xtreamPanels xuiPanels products oracles
       orderId order items k db fresh i hi pr hfind hx hsub hp⟩

/-- Products catalog for the concrete two-item run. -/
def productsT : List (Nat × Product) := [(6, subProdT)]

/-- Witness for the amended C2 theorem on a concrete two-item order. -/
theorem provisioning_attempts_all_items_witness :
    (provision_order_services envT xtPanelsT xuiPanelsT productsT oraclesT 1
      orderT 0 [subItemT, subItemT] [] 0).1.length = 2 ∧
    ((provision_order_services envT xtPanelsT xuiPanelsT productsT oraclesT 1
      orderT 0 [subItemT, subItemT] [] 0).1.getD 1 []).length = 1 :=
  ⟨(provisioning_attempts_all_items envT xtPanelsT xuiPanelsT productsT
      oraclesT 1 orderT [subItemT, subItemT] 0 [] 0).1,
   (provisioning_attempts_all_items envT xtPanelsT xuiPanelsT productsT
      oraclesT 1 orderT [subItemT, subItemT] 0 [] 0).2 1 (by decide)
      (6, subProdT) (by decide) rfl rfl (by decide)⟩

/-! ## Family A session client: extend_subscriber
(src/backend/xtreamui_session_client.py lines 339-509) -/

/--
Parsed outcome of the table_search.php lookup: HTTP status, JSON
parseability (parse failures return the exception text), the
recordsTotal count, the first row id and the tag-stripped previous
expiry string of column 7.
-/
structure SearchResp where
  status200 : Bool
  parseOk : Bool
  parseErr : String
  recordsTotal : Nat
  userId : Option Nat
  prevDateStr : String
deriving DecidableEq

/-- Parsed outcome of the verification re-query after the edit POST. -/
structure VerifyResp where
  status200 : Bool
  parseOk : Bool
  hasData : Bool
  newDateStr : String
deriving DecidableEq

/-- Result dictionary of extend_subscriber; absent keys are none. -/
structure XtExtendResult where
  success : Bool
  error : Option String
  username : Option String
  newExpiry : Option String
  note : Option String
deriving DecidableEq

/--
Embedding of XtreamUISessionClient.extend_subscriber.  Control flow of
the source: login when needed; search for the subscriber (failing on a
non-200, an unparseable body, zero records or a missing row id); POST
the edit form (its HTTP status is editStatus); re-query the listing and
compare the displayed expiry string against the remembered one.  A
changed string returns success with the new expiry; an unchanged string
with an HTTP-200 edit still returns success, flagged by the note field;
when the verification step yields no usable data the fallback returns
success exactly when the edit POST returned 200.
-/
def extend_subscriber (loggedIn loginOk : Bool) (username : String)
    (search : SearchResp) (editStatus : Nat) (verify : VerifyResp) :
    XtExtendResult :=
  if !loggedIn && !loginOk then
    ⟨false, some "Failed to login", none, none, none⟩
  else if search.status200 then
    if search.parseOk then
      if 0 < search.recordsTotal then
        match search.userId with
        | some _ =>
          if verify.status200 && verify.parseOk && verify.hasData then
            if verify.newDateStr ≠ search.prevDateStr then
              ⟨true, none, some username, some verify.newDateStr, none⟩
            else if editStatus = 200 then
              ⟨true, none, some username, none,
                some "Date unchanged but POST succeeded"⟩
            else
              ⟨false, some ("HTTP " ++ toString editStatus), none, none, none⟩
          else if editStatus = 200 then
            ⟨true, none, some username, none, none⟩
          else
            ⟨false, some ("HTTP " ++ toString editStatus), none, none, none⟩
        | none => ⟨false, some "User ID not found", none, none, none⟩
      else
        ⟨false, some ("User " ++ username ++ " not found"), none, none, none⟩
    else ⟨false, some search.parseErr, none, none, none⟩
  else ⟨false, some "Search failed", none, none, none⟩

/--
C8: after the edit POST the account listing is re-queried; when the
re-queried expiry string is unchanged but the edit POST returned HTTP
200 the call still returns success with the ambiguity flagged in its
note field, and a changed expiry string returns success carrying the
new expiry.
-/
theorem extend_subscriber_ambiguity_is_success
    (loggedIn loginOk : Bool) (username : String) (search : SearchResp)
    (editStatus : Nat) (verify : VerifyResp) (uid : Nat)
    (hlog : loggedIn = true ∨ loginOk = true)
    (hs200 : search.status200 = true) (hsp : search.parseOk = true)
    (hrec : 0 < search.recordsTotal) (huid : search.userId = some uid)
    (hv : verify.status200 = true) (hvp : verify.parseOk = true)
    (hvd : verify.hasData = true) :
    (verify.newDateStr ≠ search.prevDateStr →
      extend_subscriber loggedIn loginOk username search editStatus verify =
        ⟨true, none, some username, some verify.newDateStr, none⟩) ∧
    (verify.newDateStr = search.prevDateStr → editStatus = 200 →
      extend_subscriber loggedIn loginOk username search editStatus verify =
        ⟨true, none, some username, none,
          some "Date unchanged but POST succeeded"⟩) := by
  have hl : (!loggedIn && !loginOk) = false := by
    rcases hlog with h | h <;> simp [h]
  constructor
  · intro hne
    simp [extend_subscriber, hl, hs200, hsp, hrec, huid, hv, hvp, hvd, hne]
  · intro heq h200
    simp [extend_subscriber, hl, hs200, hsp, hrec, huid, hv, hvp, hvd, heq, h200]

/-- Witness for C8 at concrete responses: unchanged date, edit HTTP 200. -/
theorem extend_subscriber_ambiguity_is_success_witness :
    extend_subscriber true true "bob" ⟨true, true, "", 1, some 12, "2024-01-01"⟩
        200 ⟨true, true, true, "2024-01-01"⟩ =
      ⟨true, none, some "bob", none, some "Date unchanged but POST succeeded"⟩ :=
  (extend_subscriber_ambiguity_is_success true true "bob"
      ⟨true, true, "", 1, some 12, "2024-01-01"⟩ 200
      ⟨true, true, true, "2024-01-01"⟩ 12 (Or.inl rfl) rfl rfl (by decide) rfl
      rfl rfl rfl).2 rfl rfl

/-! ## Panel-account synchronisation
(src/backend/server.py sync_all_users_from_all_panels, lines 5260-5568) -/

/-- A remote panel account row as returned by the listing calls, with
the expiry string already parsed (none: unlimited or unparseable). -/
structure RemoteUser where
  username : String
  password : String
  userId : Nat
  expiry : Option Int
  maxConnections : Nat
  credits : Nat
  memberGroup : String
  createdBy : String
deriving DecidableEq

/-- A stored ImportedUser record (imported_users_collection document). -/
structure ImportedUser where
  panelIndex : Nat
  panelType : Option PanelFamily
  panelName : String
  xtreamUserId : Nat
  username : String
  password : String
  expiryDate : Option Int
  status : SvcStatus
  maxConnections : Nat
  accountType : AccountType
  createdByReseller : String
  credits : Nat
  memberGroup : String
  lastSynced : Int
  createdAt : Option Int
deriving DecidableEq

/-- One configured panel together with its sync-time remote answers
(the service-client availability and the two listing responses). -/
structure PanelSync where
  name : Option String
  available : Bool
  usersOk : Bool
  users : List RemoteUser
  resellersOk : Bool
  resellers : List RemoteUser
deriving DecidableEq

/-- The three counters the sync endpoint reports. -/
structure SyncCounts where
  totalSynced : Nat
  totalUpdated : Nat
  totalRemoved : Nat
deriving DecidableEq

/-- The reconciliation key of an ImportedUser record: the Mongo lookup
is on panel_index, panel_type, username and account_type. -/
def keyOf (r : ImportedUser) : Nat × Option PanelFamily × String × AccountType :=
  (r.panelIndex, r.panelType, r.username, r.accountType)

/-- Decidable form of the reconciliation lookup filter. -/
def iuKey (k : Nat × Option PanelFamily × String × AccountType)
    (r : ImportedUser) : Bool :=
  keyOf r == k

/-- A record with every field at its neutral value; inserts write all
the document fields over it. -/
def defaultIU : ImportedUser :=
  ⟨0, none, "", 0, "", "", none, SvcStatus.active, 0,
   AccountType.subscriber, "", 0, "", 0, none⟩

/-- update_one with a $set document: rewrite the first record matching
the filter through the document, leaving the other fields in place. -/
def replaceFirst (p : ImportedUser → Bool) (f : ImportedUser → ImportedUser) :
    List ImportedUser → List ImportedUser
  | [] => []
  | r :: rs => if p r then f r :: rs else r :: replaceFirst p f rs

/-- The subscriber $set document of the sync loops (user_doc): the
xtream loop also writes created_by_reseller, the xuione loop does not. -/
def subDocSet (fam : PanelFamily) (now : Int) (idx : Nat) (pname : String)
    (u : RemoteUser) (r : ImportedUser) : ImportedUser :=
  { r with
      panelIndex := idx
      panelType := some fam
      panelName := pname
      xtreamUserId := u.userId
      username := u.username
      password := u.password
      expiryDate := u.expiry
      status :=
        if (match u.expiry with | some e => decide (e < now) | none => false) then
          SvcStatus.expired
        else SvcStatus.active
      maxConnections := u.maxConnections
      accountType := AccountType.subscriber
      createdByReseller :=
        if fam = PanelFamily.xtream then u.createdBy else r.createdByReseller
      lastSynced := now }

/-- The reseller $set document of the sync loops (reseller_doc); the
xuione loop stores an empty password. -/
def resDocSet (fam : PanelFamily) (now : Int) (idx : Nat) (pname : String)
    (u : RemoteUser) (r : ImportedUser) : ImportedUser :=
  { r with
      panelIndex := idx
      panelType := some fam
      panelName := pname
      xtreamUserId := u.userId
      username := u.username
      password := if fam = PanelFamily.xtream then u.password else ""
      credits := u.credits
      status := SvcStatus.active
      accountType := AccountType.reseller
      memberGroup := u.memberGroup
      lastSynced := now }

/--
One of the four per-account reconciliation loops of the source, with
the loop body factored through the $set document builder setDoc: skip
rows with an empty username; update (and count updated) when a record
with the key exists, insert the document over a fresh record stamped
with created_at (and count synced) otherwise.
-/
def syncAccounts (atype : AccountType) (fam : PanelFamily) (idx : Nat)
    (now : Int) (setDoc : RemoteUser → ImportedUser → ImportedUser) :
    List RemoteUser → List ImportedUser → Nat → Nat →
      List ImportedUser × Nat × Nat
  | [], db, syncedCnt, updatedCnt => (db, syncedCnt, updatedCnt)
  | u :: us, db, syncedCnt, updatedCnt =>
    if u.username = "" then
      syncAccounts atype fam idx now setDoc us db syncedCnt updatedCnt
    else
      match db.find? (iuKey (idx, some fam, u.username, atype)) with
      | some _ =>
        syncAccounts atype fam idx now setDoc us
          (replaceFirst (iuKey (idx, some fam, u.username, atype)) (setDoc u) db)
          syncedCnt (updatedCnt + 1)
      | none =>
        syncAccounts atype fam idx now setDoc us
          (db ++ [{ setDoc u defaultIU with createdAt := some now }])
          (syncedCnt + 1) updatedCnt

/-- Sync one panel: the subscriber loop then the reseller loop, skipped
when the service client is unavailable or the listing call failed. -/
def syncPanel (fam : PanelFamily) (now : Int) (idx : Nat) (p : PanelSync)
    (db : List ImportedUser) : List ImportedUser × Nat × Nat :=
  if !p.available then (db, 0, 0)
  else
    let pname := p.name.getD
      ((if fam = PanelFamily.xtream then "XtreamUI Panel " else "XuiOne Panel ")
        ++ toString (idx + 1))
    let r1 :=
      if p.usersOk then
        syncAccounts AccountType.subscriber fam idx now
          (subDocSet fam now idx pname) p.users db 0 0
      else (db, 0, 0)
    if p.resellersOk then
      syncAccounts AccountType.reseller fam idx now
        (resDocSet fam now idx pname) p.resellers r1.1 r1.2.1 r1.2.2
    else r1

/-- Sync every panel of one family, threading the store and summing the
per-panel counters. -/
def syncPanels (fam : PanelFamily) (now : Int) :
    Nat → List PanelSync → List ImportedUser →
      List ImportedUser × Nat × Nat
  | _, [], db => (db, 0, 0)
  | idx, p :: ps, db =>
    let r := syncPanel fam now idx p db
    let rest := syncPanels fam now (idx + 1) ps r.1
    (rest.1, r.2.1 + rest.2.1, r.2.2 + rest.2.2)

/-- delete_many filter: family-tagged records whose panel name is not
among the configured names of that family. -/
def delPredFam (fam : PanelFamily) (names : List (Option String))
    (r : ImportedUser) : Bool :=
  r.panelType == some fam && !(names.contains (some r.panelName))

/-- delete_many filter: untagged records whose panel name is not among
any configured name. -/
def delPredOrphan (allNames : List (Option String)) (r : ImportedUser) : Bool :=
  r.panelType == none && !(allNames.contains (some r.panelName))

/--
Embedding of sync_all_users_from_all_panels: sync the XtreamUI panels,
then the XuiOne panels, then run the three delete_many cleanups against
the configured panel-name lists (which hold the optional name of each panel
exactly as configured).  Returns the final store and the reported
inserted/updated/removed counters.
-/
def sync_all_users_from_all_panels (now : Int)
    (xtreamPanels xuionePanels : List PanelSync) (db : List ImportedUser) :
    List ImportedUser × SyncCounts :=
  let rX := syncPanels PanelFamily.xtream now 0 xtreamPanels db
  let rU := syncPanels PanelFamily.xuione now 0 xuionePanels rX.1
  let xtNames := xtreamPanels.map (fun p => p.name)
  let xuNames := xuionePanels.map (fun p => p.name)
  let db1 := rU.1
  let rem1 := (db1.filter (delPredFam PanelFamily.xtream xtNames)).length
  let db2 := db1.filter fun r => !(delPredFam PanelFamily.xtream xtNames r)
  let rem2 := (db2.filter (delPredFam PanelFamily.xuione xuNames)).length
  let db3 := db2.filter fun r => !(delPredFam PanelFamily.xuione xuNames r)
  let allNames := xtNames ++ xuNames
  let rem3 := (db3.filter (delPredOrphan allNames)).length
  let db4 := db3.filter fun r => !(delPredOrphan allNames r)
  (db4, ⟨rX.2.1 + rU.2.1, rX.2.2 + rU.2.2, rem1 + rem2 + rem3⟩)

/-- A remote subscriber row used by the concrete sync runs. -/
def remoteU1 : RemoteUser := ⟨"u1", "pw", 5, none, 1, 0, "", ""⟩

/-- One configured, reachable panel named P with a single subscriber. -/
def panelP : PanelSync := ⟨some "P", true, true, [remoteU1], true, []⟩

/--
C9 counterexample: with one panel and one remote account, the first
sync run inserts one record; a second run over the unchanged remote set
reports one updated record (every existing record is rewritten and
counted), so the second-run counters are (0, 1, 0), not (0, 0, 0).
-/
theorem sync_second_run_reports_updates :
    (sync_all_users_from_all_panels 1000 [panelP] [] []).2 = ⟨1, 0, 0⟩ ∧
    (sync_all_users_from_all_panels 1000 [panelP] []
      (sync_all_users_from_all_panels 1000 [panelP] [] []).1).2 = ⟨0, 1, 0⟩ ∧
    (sync_all_users_from_all_panels 1000 [panelP] []
      (sync_all_users_from_all_panels 1000 [panelP] [] []).1).2 ≠ ⟨0, 0, 0⟩ := by
  decide

/-- Helper: a $set through a document builder that pins the key leaves
the key multiset of the store unchanged. -/
theorem replaceFirst_map_keyOf (k0 : Nat × Option PanelFamily × String × AccountType)
    (f : ImportedUser → ImportedUser) (hf : ∀ r, keyOf (f r) = k0) :
    ∀ db : List ImportedUser,
      (replaceFirst (iuKey k0) f db).map keyOf = db.map keyOf := by
  intro db
  induction db with
  | nil => rfl
  | cons r rs ih =>
    by_cases h : iuKey k0 r = true
    · have hr : keyOf r = k0 := by
        have := h
        simp only [iuKey, beq_iff_eq] at this
        exact this
      simp [replaceFirst, h, hf r, hr]
    · simp only [replaceFirst, Bool.not_eq_true] at h
      simp [replaceFirst, h, ih]

/-- Helper: a reconciliation loop never loses a key already present. -/
theorem syncAccounts_keys_mono (atype : AccountType) (fam : PanelFamily)
    (idx : Nat) (now : Int) (setDoc : RemoteUser → ImportedUser → ImportedUser)
    (hdoc : ∀ u r, keyOf (setDoc u r) = (idx, some fam, u.username, atype)) :
    ∀ (us : List RemoteUser) (db : List ImportedUser) (s t : Nat)
      (k : Nat × Option PanelFamily × String × AccountType),
      k ∈ db.map keyOf →
      k ∈ (syncAccounts atype fam idx now setDoc us db s t).1.map keyOf := by
  intro us
  induction us with
  | nil => intro db s t k hk; exact hk
  | cons u rest ih =>
    intro db s t k hk
    by_cases hu : u.username = ""
    · simp only [syncAccounts, hu, if_true]
      exact ih db s t k hk
    · simp only [syncAccounts, hu, if_false]
      cases hfind : db.find? (iuKey (idx, some fam, u.username, atype)) with
      | some r =>
        refine ih _ s (t + 1) k ?_
        rw [replaceFirst_map_keyOf (idx, some fam, u.username, atype)
          (setDoc u) (fun r2 => hdoc u r2) db]
        exact hk
      | none =>
        refine ih _ (s + 1) t k ?_
        simp only [List.map_append]
        exact List.mem_append_left _ hk

/-- Helper: after a reconciliation loop, every nonempty-named remote row
has a record with its key in the store. -/
theorem syncAccounts_covers (atype : AccountType) (fam : PanelFamily)
    (idx : Nat) (now : Int) (setDoc : RemoteUser → ImportedUser → ImportedUser)
    (hdoc : ∀ u r, keyOf (setDoc u r) = (idx, some fam, u.username, atype)) :
    ∀ (us : List RemoteUser) (db : List ImportedUser) (s t : Nat)
      (u : RemoteUser), u ∈ us → u.username ≠ "" →
      (idx, some fam, u.username, atype) ∈
        (syncAccounts atype fam idx now setDoc us db s t).1.map keyOf := by
  intro us
  induction us with
  | nil => intro db s t u hu; exact absurd hu (List.not_mem_nil u)
  | cons v rest ih =>
    intro db s t u hu hne
    rcases List.mem_cons.mp hu with rfl | hmem
    · simp only [syncAccounts, hne, if_false]
      cases hfind : db.find? (iuKey (idx, some fam, u.username, atype)) with
      | some r =>
        refine syncAccounts_keys_mono atype fam idx now setDoc hdoc rest _ s (t + 1) _ ?_
        rw [replaceFirst_map_keyOf (idx, some fam, u.username, atype)
          (setDoc u) (fun r2 => hdoc u r2) db]
        have hr := List.find?_some hfind
        have hrm := List.mem_of_find?_eq_some hfind
        simp only [iuKey, beq_iff_eq] at hr
        exact List.mem_map.mpr ⟨r, hrm, hr⟩
      | none =>
        refine syncAccounts_keys_mono atype fam idx now setDoc hdoc rest _ (s + 1) t _ ?_
        simp only [List.map_append]
        refine List.mem_append_right _ ?_
        have : keyOf { setDoc u defaultIU with createdAt := some now } =
            (idx, some fam, u.username, atype) := hdoc u defaultIU
        simp [this]
    · by_cases hv : v.username = ""
      · simp only [syncAccounts, hv, if_true]
        exact ih db s t u hmem hne
      · simp only [syncAccounts, hv, if_false]
        cases hfind : db.find? (iuKey (idx, some fam, v.username, atype)) with
        | some r => exact ih _ s (t + 1) u hmem hne
        | none => exact ih _ (s + 1) t u hmem hne

/-- Helper: when the key of every remote row is already present, the loop
inserts nothing, counts every nonempty-named row as updated, and keeps
the key multiset unchanged. -/
theorem syncAccounts_no_insert (atype : AccountType) (fam : PanelFamily)
    (idx : Nat) (now : Int) (setDoc : RemoteUser → ImportedUser → ImportedUser)
    (hdoc : ∀ u r, keyOf (setDoc u r) = (idx, some fam, u.username, atype)) :
    ∀ (us : List RemoteUser) (db : List ImportedUser) (s t : Nat),
      (∀ u ∈ us, u.username ≠ "" →
        (idx, some fam, u.username, atype) ∈ db.map keyOf) →
      (syncAccounts atype fam idx now setDoc us db s t).2.1 = s ∧
      (syncAccounts atype fam idx now setDoc us db s t).2.2 =
        t + (us.filter fun u => !(u.username == "")).length ∧
      (syncAccounts atype fam idx now setDoc us db s t).1.map keyOf =
        db.map keyOf := by
  intro us
  induction us with
  | nil => intro db s t hcov; exact ⟨rfl, rfl, rfl⟩
  | cons u rest ih =>
    intro db s t hcov
    by_cases hu : u.username = ""
    · have hub : (u.username == "") = true := by simp [hu]
      simp only [syncAccounts, hu, if_true, List.filter_cons, hub,
        Bool.not_true, if_false]
      exact ih db s t fun v hv hn => hcov v (List.mem_cons_of_mem u hv) hn
    · have hub : (u.username == "") = false := by simp [hu]
      have hkey := hcov u (List.mem_cons_self u rest) hu
      rcases List.mem_map.mp hkey with ⟨r, hrm, hrk⟩
      have hfs : (db.find? (iuKey (idx, some fam, u.username, atype))).isSome := by
        refine List.find?_isSome.mpr ⟨r, hrm, ?_⟩
        simp [iuKey, hrk]
      rcases Option.isSome_iff_exists.mp hfs with ⟨r2, hfind⟩
      have hkeys := replaceFirst_map_keyOf (idx, some fam, u.username, atype)
        (setDoc u) (fun r3 => hdoc u r3) db
      simp only [syncAccounts, hu, if_false, hfind]
      have ihr := ih (replaceFirst (iuKey (idx, some fam, u.username, atype))
          (setDoc u) db) s (t + 1)
        (fun v hv hn => by rw [hkeys]; exact hcov v (List.mem_cons_of_mem u hv) hn)
      refine ⟨ihr.1, ?_, by rw [ihr.2.2, hkeys]⟩
      rw [ihr.2.1]
      simp only [List.filter_cons, hub, Bool.not_false, if_true,
        List.length_cons]
      omega

/-- Helper: a record property holding for the updated record holds for
every record of the store after a $set on the first filter match. -/
theorem replaceFirst_shape (p : ImportedUser → Bool)
    (f : ImportedUser → ImportedUser) (P : ImportedUser → Prop)
    (hfP : ∀ r, P (f r)) :
    ∀ db, (∀ r ∈ db, P r) → ∀ r ∈ replaceFirst p f db, P r := by
  intro db
  induction db with
  | nil => intro _ r hr; exact absurd hr (List.not_mem_nil r)
  | cons a rs ih =>
    intro hdb r hr
    by_cases h : p a = true
    · simp only [replaceFirst, h, if_true] at hr
      rcases List.mem_cons.mp hr with heq | hmem
      · rw [heq]; exact hfP a
      · exact hdb r (List.mem_cons_of_mem a hmem)
    · simp only [replaceFirst, Bool.not_eq_true] at h
      simp only [replaceFirst, h, Bool.false_eq_true, if_false] at hr
      rcases List.mem_cons.mp hr with heq | hmem
      · rw [heq]; exact hdb a (List.mem_cons_self a rs)
      · exact ih (fun r2 hr2 => hdb r2 (List.mem_cons_of_mem a hr2)) r hmem

/-- Helper: a record property written by the $set document (and by the
stamped insert) is an invariant of the reconciliation loop. -/
theorem syncAccounts_shape (atype : AccountType) (fam : PanelFamily)
    (idx : Nat) (now : Int) (setDoc : RemoteUser → ImportedUser → ImportedUser)
    (P : ImportedUser → Prop) (hdocP : ∀ u r, P (setDoc u r))
    (hinsP : ∀ u, P { setDoc u defaultIU with createdAt := some now }) :
    ∀ (us : List RemoteUser) (db : List ImportedUser) (s t : Nat),
      (∀ r ∈ db, P r) →
      ∀ r ∈ (syncAccounts atype fam idx now setDoc us db s t).1, P r := by
  intro us
  induction us with
  | nil => intro db s t hdb r hr; exact hdb r hr
  | cons u rest ih =>
    intro db s t hdb r hr
    by_cases hu : u.username = ""
    · simp only [syncAccounts, hu, if_true] at hr
      exact ih db s t hdb r hr
    · simp only [syncAccounts, hu, if_false] at hr
      cases hfind : db.find? (iuKey (idx, some fam, u.username, atype)) with
      | some r2 =>
        rw [hfind] at hr
        exact ih _ s (t + 1)
          (replaceFirst_shape _ (setDoc u) P (fun r3 => hdocP u r3) db hdb) r hr
      | none =>
        rw [hfind] at hr
        refine ih _ (s + 1) t ?_ r hr
        intro r3 hr3
        rcases List.mem_append.mp hr3 with hmem | hmem
        · exact hdb r3 hmem
        · rcases List.mem_singleton.mp hmem with rfl
          exact hinsP u

/-- Helper: one reachable, named xtream panel with no resellers reduces
to the subscriber reconciliation loop. -/
theorem syncPanel_single (now : Int) (idx : Nat) (p : PanelSync) (nm : String)
    (hav : p.available = true) (huo : p.usersOk = true)
    (hres : p.resellers = []) (hnm : p.name = some nm) (db : List ImportedUser) :
    syncPanel PanelFamily.xtream now idx p db =
      syncAccounts AccountType.subscriber PanelFamily.xtream idx now
        (subDocSet PanelFamily.xtream now idx nm) p.users db 0 0 := by
  unfold syncPanel
  simp only [hav, Bool.not_true, Bool.false_eq_true, if_false, hnm, huo,
    if_true, Option.getD_some]
  cases hro : p.resellersOk with
  | true => rw [hres]; rfl
  | false => rfl

/-- Helper: the panel loop over a single panel is the sync of that panel. -/
theorem syncPanels_single (fam : PanelFamily) (now : Int) (p : PanelSync)
    (db : List ImportedUser) :
    syncPanels fam now 0 [p] db = syncPanel fam now 0 p db := by
  simp [syncPanels]

/-- Helper: the three cleanup deletions do nothing on a store whose
records all carry the xtream tag and the configured panel name. -/
theorem cleanup_preserves (nm : String) (db : List ImportedUser)
    (hinv : ∀ r ∈ db, r.panelType = some PanelFamily.xtream ∧ r.panelName = nm) :
    (db.filter (delPredFam PanelFamily.xtream [some nm])).length = 0 ∧
    (db.filter fun r => !(delPredFam PanelFamily.xtream [some nm] r)) = db ∧
    (db.filter (delPredFam PanelFamily.xuione [])).length = 0 ∧
    (db.filter fun r => !(delPredFam PanelFamily.xuione [] r)) = db ∧
    (db.filter (delPredOrphan ([some nm] ++ []))).length = 0 ∧
    (db.filter fun r => !(delPredOrphan ([some nm] ++ []) r)) = db := by
  have hp1 : ∀ r ∈ db, delPredFam PanelFamily.xtream [some nm] r = false := by
    intro r hr
    rcases hinv r hr with ⟨h1, h2⟩
    simp [delPredFam, h1, h2]
  have hp2 : ∀ r ∈ db, delPredFam PanelFamily.xuione [] r = false := by
    intro r hr
    rcases hinv r hr with ⟨h1, h2⟩
    simp [delPredFam, h1]
  have hp3 : ∀ r ∈ db, delPredOrphan [some nm] r = false := by
    intro r hr
    rcases hinv r hr with ⟨h1, h2⟩
    simp [delPredOrphan, h1]
  refine ⟨?_, ?_, ?_, ?_, ?_, ?_⟩
  · simp only [List.length_eq_zero, List.filter_eq_nil_iff]
    intro r hr
    simp [hp1 r hr]
  · refine List.filter_eq_self.mpr ?_
    intro r hr
    simp [hp1 r hr]
  · simp only [List.length_eq_zero, List.filter_eq_nil_iff]
    intro r hr
    simp [hp2 r hr]
  · refine List.filter_eq_self.mpr ?_
    intro r hr
    simp [hp2 r hr]
  · simp only [List.length_eq_zero, List.filter_eq_nil_iff]
    intro r hr
    simp [hp3 r hr]
  · refine List.filter_eq_self.mpr ?_
    intro r hr
    simp [hp3 r hr]

/-- Helper: on a single reachable named xtream panel with no resellers,
the whole sync endpoint is the subscriber loop with no removals, as
long as every stored record already carries the panel tag and name. -/
theorem sync_single_xtream_panel (now : Int) (p : PanelSync) (nm : String)
    (hav : p.available = true) (huo : p.usersOk = true)
    (hres : p.resellers = []) (hnm : p.name = some nm)
    (db : List ImportedUser)
    (hinv : ∀ r ∈ db, r.panelType = some PanelFamily.xtream ∧ r.panelName = nm) :
    sync_all_users_from_all_panels now [p] [] db =
      ((syncAccounts AccountType.subscriber PanelFamily.xtream 0 now
          (subDocSet PanelFamily.xtream now 0 nm) p.users db 0 0).1,
       ⟨(syncAccounts AccountType.subscriber PanelFamily.xtream 0 now
           (subDocSet PanelFamily.xtream now 0 nm) p.users db 0 0).2.1,
        (syncAccounts AccountType.subscriber PanelFamily.xtream 0 now
           (subDocSet PanelFamily.xtream now 0 nm) p.users db 0 0).2.2, 0⟩) := by
  have hinv2 : ∀ r ∈ (syncAccounts AccountType.subscriber PanelFamily.xtream 0
      now (subDocSet PanelFamily.xtream now 0 nm) p.users db 0 0).1,
      r.panelType = some PanelFamily.xtream ∧ r.panelName = nm :=
    syncAccounts_shape AccountType.subscriber PanelFamily.xtream 0 now
      (subDocSet PanelFamily.xtream now 0 nm)
      (fun r => r.panelType = some PanelFamily.xtream ∧ r.panelName = nm)
      (fun u r => ⟨rfl, rfl⟩) (fun u => ⟨rfl, rfl⟩) p.users db 0 0 hinv
  obtain ⟨h1, h2, h3, h4, h5, h6⟩ := cleanup_preserves nm _ hinv2
  unfold sync_all_users_from_all_panels
  rw [syncPanels_single, syncPanel_single now 0 p nm hav huo hres hnm]
  simp only [syncPanels, List.map_cons, List.map_nil, hnm, List.append_nil]
  simp only [List.append_nil] at h5 h6
  rw [h2, h4, h6]
  simp only [h1, h3, h5, Nat.add_zero, Nat.zero_add]

/--
C9 amended: on an unchanged remote account set the second sync run
inserts zero and removes zero records, but reports one update per
remote account rather than zero - every record found by key is
unconditionally rewritten (last_synced advances) and counted as
updated.  Stated for one reachable named XtreamUI panel whose listing
succeeds, has no reseller rows and no empty usernames, starting from an
empty store.
-/
theorem sync_second_run_counts (now : Int) (p : PanelSync) (nm : String)
    (hav : p.available = true) (huo : p.usersOk = true)
    (hres : p.resellers = []) (hnm : p.name = some nm)
    (hall : ∀ u ∈ p.users, u.username ≠ "") :
    (sync_all_users_from_all_panels now [p] []
      (sync_all_users_from_all_panels now [p] [] []).1).2 =
      ⟨0, p.users.length, 0⟩ := by
  have hdoc : ∀ (u : RemoteUser) (r : ImportedUser),
      keyOf (subDocSet PanelFamily.xtream now 0 nm u r) =
        (0, some PanelFamily.xtream, u.username, AccountType.subscriber) :=
    fun u r => rfl
  have hrun1 := sync_single_xtream_panel now p nm hav huo hres hnm []
    (fun r hr => absurd hr (List.not_mem_nil r))
  have hinv1 : ∀ r ∈ (syncAccounts AccountType.subscriber PanelFamily.xtream 0
      now (subDocSet PanelFamily.xtream now 0 nm) p.users [] 0 0).1,
      r.panelType = some PanelFamily.xtream ∧ r.panelName = nm :=
    syncAccounts_shape AccountType.subscriber PanelFamily.xtream 0 now
      (subDocSet PanelFamily.xtream now 0 nm)
      (fun r => r.panelType = some PanelFamily.xtream ∧ r.panelName = nm)
      (fun u r => ⟨rfl, rfl⟩) (fun u => ⟨rfl, rfl⟩) p.users [] 0 0
      (fun r hr => absurd hr (List.not_mem_nil r))
  have hrun2 := sync_single_xtream_panel now p nm hav huo hres hnm
    (syncAccounts AccountType.subscriber PanelFamily.xtream 0 now
      (subDocSet PanelFamily.xtream now 0 nm) p.users [] 0 0).1 hinv1
  have hcov : ∀ u ∈ p.users, u.username ≠ "" →
      (0, some PanelFamily.xtream, u.username, AccountType.subscriber) ∈
        (syncAccounts AccountType.subscriber PanelFamily.xtream 0 now
          (subDocSet PanelFamily.xtream now 0 nm) p.users [] 0 0).1.map keyOf :=
    fun u hu hn => syncAccounts_covers AccountType.subscriber PanelFamily.xtream
      0 now (subDocSet PanelFamily.xtream now 0 nm) hdoc p.users [] 0 0 u hu hn
  have hD := syncAccounts_no_insert AccountType.subscriber PanelFamily.xtream
    0 now (subDocSet PanelFamily.xtream now 0 nm) hdoc p.users
    (syncAccounts AccountType.subscriber PanelFamily.xtream 0 now
      (subDocSet PanelFamily.xtream now 0 nm) p.users [] 0 0).1 0 0 hcov
  have hfilter : p.users.filter (fun u => !(u.username == "")) = p.users :=
    List.filter_eq_self.mpr (fun u hu => by simp [hall u hu])
  rw [hrun1, hrun2]
  have hs := hD.1
  have ht := hD.2.1
  rw [hfilter] at ht
  simp only [hs, ht, Nat.zero_add]

/-- Witness for the amended C9 theorem at the concrete one-account panel. -/
theorem sync_second_run_counts_witness :
    (sync_all_users_from_all_panels 1000 [panelP] []
      (sync_all_users_from_all_panels 1000 [panelP] [] []).1).2 =
      ⟨0, panelP.users.length, 0⟩ :=
  sync_second_run_counts 1000 panelP "P" rfl rfl rfl rfl
    (by intro u hu; rcases List.mem_singleton.mp hu with rfl; decide)
